import Mathlib

/-!
Verification development for a repository of tabular-data teaching scripts
(pandas / polars / duckdb comparison exercises).  The Python sources are
shallowly embedded: pure query logic becomes Lean functions over lists of
records, the timing harness becomes explicit state passing over an abstract
clock, the global NumPy RNG becomes explicit state threaded through the
dataset generator, and database-connection lifecycle becomes a small step
trace.  Rational numbers stand in for Python floats; all query arithmetic
in the scripts is sums, means and two-decimal rounding, which ℚ models
exactly.
-/

namespace Tutorial

/-- Round a rational to two decimal places, as `ROUND(x, 2)` / `.round(2)`. -/
def round2 (q : ℚ) : ℚ := (round (q * 100) : ℤ) / 100

/-- Key list in first-occurrence order with duplicates removed: the grouping
keys produced by a group-by over a column. -/
def uniqueKeys {κ : Type} [DecidableEq κ] (l : List κ) : List κ :=
  l.foldl (fun acc k => if k ∈ acc then acc else acc ++ [k]) []

/-- Sort descending by `key` (models `.sort(col, descending=True)` /
`ORDER BY col DESC`). -/
def sortDescBy {α : Type} (key : α → ℚ) (l : List α) : List α :=
  List.insertionSort (fun a b => key b ≤ key a) l

/-- Sort a keyed table descending by its value column. -/
def sortDesc {κ : Type} (l : List (κ × ℚ)) : List (κ × ℚ) :=
  sortDescBy (·.2) l

/-- Arithmetic mean of a list of rationals (0 on the empty list, which the
scripts never hit on their generated data). -/
def listMean (l : List ℚ) : ℚ := l.sum / l.length

/-- `MAX(col)` in SQL: `NULL` (`none`) on the empty table. -/
def sqlMax (l : List ℚ) : Option ℚ :=
  l.foldr (fun x acc => match acc with | none => some x | some m => some (max x m)) none

/-! ### The timed-operation harness (`time_operation` in scripts 03 and 05)

```python
def time_operation(func):
    def wrapper(*args, **kwargs):
        start = time()
        result = func(*args, **kwargs)
        end = time()
        return result, end - start
    return wrapper
```

The ambient clock is a map from call index to reading; `tick` counts the
`time()` calls made so far and `calls` instruments how often the wrapped
computation has been invoked.  The wrapped computation is an arbitrary
state transformer that may itself consume time and may raise (`Except`). -/

structure ClockState where
  clock : ℕ → ℚ
  tick : ℕ
  calls : ℕ

/-- One call of `time()`: read the clock at the current tick and advance. -/
def timeFn (s : ClockState) : ℚ × ClockState :=
  (s.clock s.tick, { s with tick := s.tick + 1 })

/-- Invoke the wrapped computation once; the instrumentation counter
`calls` records the invocation. -/
def invoke {ε α : Type} (func : ClockState → Except ε α × ClockState)
    (s : ClockState) : Except ε α × ClockState :=
  let (r, t) := func s
  (r, { t with calls := t.calls + 1 })

/-- `time_operation`'s wrapper: `start = time(); result = func(...); end = time();
return result, end - start`.  If `func` raises, the wrapper has no handler:
the error propagates before `end = time()` runs. -/
def time_operation {ε α : Type} (func : ClockState → Except ε α × ClockState)
    (s : ClockState) : Except ε (α × ℚ) × ClockState :=
  let (startT, s1) := timeFn s
  let (r, s2) := invoke func s1
  match r with
  | .error e => (.error e, s2)
  | .ok result =>
      let (endT, s3) := timeFn s2
      (.ok (result, endT - startT), s3)

/-! ### Dataset generation (`create_large_dataset` in scripts 03 and 05)

The NumPy global RNG is abstracted as an arbitrary implementation over an
arbitrary state type; `np.random.seed(42)` replaces the ambient global
state with the state determined by seed 42, which is exactly why the
generator is reproducible. -/

structure PRNGImpl (S : Type) where
  seed : ℕ → S
  randint : ℕ → ℕ → S → ℕ × S
  uniform : ℚ → ℚ → S → ℚ × S
  choice : List String → S → String × S

/-- Draw `n` values with a stateful step, as `np.random.xxx(..., size=n)`. -/
def drawN {S α : Type} (step : S → α × S) : ℕ → S → List α × S
  | 0, s => ([], s)
  | n + 1, s =>
      let (x, s1) := step s
      let (xs, s2) := drawN step n s1
      (x :: xs, s2)

/-- The generated table: one list per column, as the Python `data` dict.
Timestamps are seconds since `datetime(2023, 1, 1)`. -/
structure RawData where
  timestamp : List ℕ
  store_id : List ℕ
  product_id : List ℕ
  quantity : List ℕ
  price : List ℚ
  customer_id : List ℕ
  promotion : List String
deriving DecidableEq, Repr

set_option linter.unusedVariables false in
/-- `create_large_dataset(rows)` of scripts 03 and 05: reseed the global RNG
with 42, then draw every column.  `ambient` is the NumPy global RNG state at
entry; `np.random.seed(42)` discards it. -/
def create_large_dataset {S : Type} (np : PRNGImpl S) (ambient : S) (rows : ℕ) :
    RawData :=
  let g0 := np.seed 42
  let dates := (List.range rows).map (fun x => x)
  let (store_id, g1) := drawN (np.randint 1 100) rows g0
  let (product_id, g2) := drawN (np.randint 1 1000) rows g1
  let (quantity, g3) := drawN (np.randint 1 50) rows g2
  let (price, g4) := drawN
    (fun s => let (v, s1) := np.uniform 10 1000 s; (round2 v, s1)) rows g3
  let (customer_id, g5) := drawN (np.randint 1 10000) rows g4
  let (promotion, _) := drawN
    (np.choice ["None", "discount_10", "discount_20", "buy_one_get_one"]) rows g5
  { timestamp := dates, store_id := store_id, product_id := product_id,
    quantity := quantity, price := price, customer_id := customer_id,
    promotion := promotion }

/-! ### Sales rows and the script 02 / 04 queries

`data/sales_data.csv` rows have columns `date, product, quantity, price`. -/

structure SalesRow where
  date : String
  product : String
  quantity : ℤ
  price : ℚ
deriving DecidableEq, Repr

/-- `quantity * price` for one row. -/
def rowRevenue (r : SalesRow) : ℚ := (r.quantity : ℚ) * r.price

/-- Script 02 `polars_analysis`, step 2: revenue column, group by product,
`revenue.sum().round(2)` per product (group keys in first-occurrence order,
as produced by the engine's single-pass grouping). -/
def polarsProductRevenue (ds : List SalesRow) : List (String × ℚ) :=
  (uniqueKeys (ds.map (·.product))).map fun p =>
    (p, round2 (((ds.filter (fun r => r.product = p)).map rowRevenue).sum))

/-- Script 04 `duckdb_analysis`, query 1: `ROUND(SUM(quantity * price), 2)`
grouped by product, `ORDER BY total_revenue DESC`. -/
def duckdbProductRevenue (ds : List SalesRow) : List (String × ℚ) :=
  sortDesc (polarsProductRevenue ds)

/-- Script 02 `polars_analysis`, step 3 grouping: daily revenue per date,
not rounded (`pl.col('revenue').sum()`). -/
def dailySalesPl (ds : List SalesRow) : List (String × ℚ) :=
  (uniqueKeys (ds.map (·.date))).map fun d =>
    (d, ((ds.filter (fun r => r.date = d)).map rowRevenue).sum)

/-- Script 02 `polars_analysis`, step 3: sort daily sales descending and take
`head(1)` — a single best day even when several days tie. -/
def polarsBestDay (ds : List SalesRow) : List (String × ℚ) :=
  (sortDesc (dailySalesPl ds)).take 1

/-- Script 04 `duckdb_analysis`, query 2 CTE `daily_sales`:
`ROUND(SUM(quantity * price), 2)` grouped by date. -/
def dailySalesDk (ds : List SalesRow) : List (String × ℚ) :=
  (uniqueKeys (ds.map (·.date))).map fun d =>
    (d, round2 (((ds.filter (fun r => r.date = d)).map rowRevenue).sum))

/-- Script 04 `duckdb_analysis`, query 2:
`SELECT * FROM daily_sales WHERE daily_revenue = (SELECT MAX(daily_revenue) FROM daily_sales)`. -/
def duckdbBestDay (ds : List SalesRow) : List (String × ℚ) :=
  (dailySalesDk ds).filter fun x =>
    sqlMax ((dailySalesDk ds).map (·.2)) = some x.2

/-! ### Script 04: the `weekly_avg` defect, file check and `__main__` -/

inductive PyErr where
  | fileNotFound (path : String)
  | nameError (name : String)
deriving DecidableEq, Repr

/-- Script 04 `duckdb_analysis`: runs its two queries, closes the connection,
then executes `return product_revenue, best_day, weekly_avg`.  The local
environment built by the function's assignments binds `product_revenue` and
`best_day` but never `weekly_avg`, so evaluating the return expression raises
`NameError`. -/
def duckdb_analysis (ds : List SalesRow) :
    Except PyErr (List (String × ℚ) × List (String × ℚ) × List (String × ℚ)) :=
  let product_revenue := duckdbProductRevenue ds
  let best_day := duckdbBestDay ds
  let env : String → Option (List (String × ℚ)) := fun n =>
    if n = "product_revenue" then some product_revenue
    else if n = "best_day" then some best_day
    else none
  match env "product_revenue", env "best_day", env "weekly_avg" with
  | some a, some b, some c => .ok (a, b, c)
  | _, _, _ => .error (.nameError "weekly_avg")

/-- Script 04 `verify_data_file`: raise `FileNotFoundError` when
`data/sales_data.csv` is not among the existing files, otherwise show the
first five rows.  `fs` is the set of files that exist; `ds` the file's rows. -/
def verify_data_file (fs : List String) (ds : List SalesRow) :
    Except PyErr (List SalesRow) :=
  if "data/sales_data.csv" ∈ fs then .ok (ds.take 5)
  else .error (.fileNotFound "Data file not found at data/sales_data.csv")

/-- Observable outcome of script 04's `__main__` block: whether the analysis
queries were reached, what error text was printed, and any error that escaped
the try/except boundary. -/
structure MainOutcome where
  analysisRan : Bool
  printed : List String
  unhandled : Option PyErr
deriving DecidableEq, Repr

/-- The two except clauses of script 04's `__main__`:
`except FileNotFoundError` prints the error plus a hint; `except Exception`
prints a generic message.  Both catch; nothing escapes. -/
def handleErr (analysisRan : Bool) : PyErr → MainOutcome
  | .fileNotFound msg =>
      ⟨analysisRan,
        ["Error: " ++ msg,
         "Please ensure the sales data file exists in the data directory."],
        none⟩
  | e => ⟨analysisRan, ["An error occurred: " ++ reprStr e], none⟩

/-- Script 04 `__main__`: `try: verify_data_file(); duckdb_analysis() except ...`. -/
def mainBlock (fs : List String) (ds : List SalesRow) : MainOutcome :=
  match verify_data_file fs ds with
  | .error e => handleErr false e
  | .ok _ =>
      match duckdb_analysis ds with
      | .error e => handleErr true e
      | .ok _ => ⟨true, [], none⟩

/-! ### Connection lifecycle as a step trace (claim about close-on-error)

Each function that opens a DuckDB connection is summarised by its sequence
of connection-relevant statements, in source order.  `runSteps` executes
them against an oracle `fails` saying which queries raise; a raise aborts
the rest of the function (there is no try/finally in any of them). -/

inductive DbStep where
  | openCon
  | fileCheck
  | query (name : String)
  | closeCon
deriving DecidableEq, Repr

structure DbTrace where
  connOpen : Bool
  closeReached : Bool
  raised : Bool
deriving DecidableEq, Repr

def initTrace : DbTrace := ⟨false, false, false⟩

def runSteps (fails : String → Bool) (fileMissing : Bool) :
    List DbStep → DbTrace → DbTrace
  | [], t => t
  | .openCon :: rest, t => runSteps fails fileMissing rest { t with connOpen := true }
  | .fileCheck :: rest, t =>
      if fileMissing then { t with raised := true }
      else runSteps fails fileMissing rest t
  | .query n :: rest, t =>
      if fails n then { t with raised := true }
      else runSteps fails fileMissing rest t
  | .closeCon :: rest, t =>
      runSteps fails fileMissing rest { t with connOpen := false, closeReached := true }

/-- Statement sequence of script 04 `duckdb_analysis`: open, two queries,
close (the failing `return` comes after the close). -/
def duckdbAnalysisSteps : List DbStep :=
  [.openCon, .query "product_revenue", .query "best_day", .closeCon]

def duckdbAnalysisQueries : List String := ["product_revenue", "best_day"]

/-- Statement sequence of script 04 `verify_data_file`: existence check
(raises before any connection), open, sample query, close. -/
def verifyDataFileSteps : List DbStep :=
  [.fileCheck, .openCon, .query "sample", .closeCon]

def verifyDataFileQueries : List String := ["sample"]

/-- Statement sequence of script 05 `duckdb_operations`: open, view creation
plus four analysis queries, close. -/
def duckdbOperationsSteps : List DbStep :=
  [.openCon, .query "create_view", .query "store_metrics", .query "hourly_revenue",
   .query "customer_metrics", .query "promo_metrics", .closeCon]

def duckdbOperationsQueries : List String :=
  ["create_view", "store_metrics", "hourly_revenue", "customer_metrics", "promo_metrics"]

/-! ### Script 03: pandas mutates its argument, polars does not

Script 03's dataframes are modelled as string-keyed column stores so that
`df["revenue"] = ...` (mutation of the caller's object) and
`df = df.with_columns(...)` (rebinding a local name) can be told apart.
Each operation function returns both its results dictionary and the
dataframe object the caller observes after the call. -/

inductive PyVal where
  | int (n : ℤ)
  | rat (q : ℚ)
  | str (s : String)
  | dt (seconds : ℕ)
deriving DecidableEq, Repr

/-- Numeric view of a Python value (query columns are numeric). -/
def asRat : PyVal → ℚ
  | .int n => (n : ℚ)
  | .rat q => q
  | _ => 0

/-- `pd.to_datetime` on one value: normalises to a datetime value. -/
def toDatetime : PyVal → PyVal
  | .dt s => .dt s
  | .int n => .dt n.toNat
  | v => v

/-- Calendar-day bucket of a timestamp (`dt.date` / `group_by_dynamic 1d`). -/
def dayOf : PyVal → ℕ
  | .dt s => s / 86400
  | _ => 0

/-- A dataframe: columns by name, in insertion order. -/
abbrev DF : Type := List (String × List PyVal)

def getCol (df : DF) (name : String) : List PyVal :=
  ((df.find? (fun c => c.1 == name)).map (·.2)).getD []

def hasCol (df : DF) (name : String) : Bool :=
  df.any (fun c => c.1 == name)

/-- Column assignment `df[name] = col`: overwrite in place, or append a new
column at the end. -/
def setCol (df : DF) (name : String) (col : List PyVal) : DF :=
  if hasCol df name then
    df.map (fun c => if c.1 == name then (name, col) else c)
  else df ++ [(name, col)]

/-- Grouping keys of a column, first occurrence first. -/
def groupKeys (df : DF) (keyCol : String) : List PyVal :=
  uniqueKeys (getCol df keyCol)

/-- Values of `valCol` on the rows whose `keyCol` entry is `k`. -/
def groupCells (df : DF) (keyCol : String) (k : PyVal) (valCol : String) :
    List PyVal :=
  ((getCol df keyCol).zip (getCol df valCol)).filterMap
    (fun p => if p.1 = k then some p.2 else none)

def groupVals (df : DF) (keyCol : String) (k : PyVal) (valCol : String) : List ℚ :=
  (groupCells df keyCol k valCol).map asRat

/-- Results dictionary shared by `pandas_operations` and `polars_operations`
of script 03: store metrics `(store, revenue sum, revenue mean, quantity sum,
distinct customers)`, daily revenue, top-10 customers, promotion impact
`(promo, mean, count, sum)`. -/
structure OpResults where
  store_metrics : List (PyVal × ℚ × ℚ × ℚ × ℕ)
  daily_revenue : List (ℕ × ℚ)
  top_customers : List (PyVal × ℚ)
  promo_impact : List (PyVal × ℚ × ℕ × ℚ)
deriving DecidableEq, Repr

/-- Script 03 `pandas_operations`: `df["timestamp"] = pd.to_datetime(...)` and
`df["revenue"] = df["quantity"] * df["price"]` mutate the argument object;
the four aggregations follow.  Second component of the result: the caller's
dataframe after the call. -/
def pandas_operations (df : DF) : OpResults × DF :=
  let df1 := setCol df "timestamp" ((getCol df "timestamp").map toDatetime)
  let df2 := setCol df1 "revenue"
    (((getCol df1 "quantity").zip (getCol df1 "price")).map
      (fun p => .rat (asRat p.1 * asRat p.2)))
  let store_metrics := (groupKeys df2 "store_id").map fun k =>
    (k, round2 (groupVals df2 "store_id" k "revenue").sum,
        round2 (listMean (groupVals df2 "store_id" k "revenue")),
        round2 (groupVals df2 "store_id" k "quantity").sum,
        (uniqueKeys (groupCells df2 "store_id" k "customer_id")).length)
  let days := uniqueKeys ((getCol df2 "timestamp").map dayOf)
  let daily_revenue := days.map fun d =>
    (d, (((getCol df2 "timestamp").map dayOf).zip ((getCol df2 "revenue").map asRat)
          |>.filterMap (fun p => if p.1 = d then some p.2 else none)).sum)
  let top_customers := (sortDesc ((groupKeys df2 "customer_id").map fun k =>
    (k, (groupVals df2 "customer_id" k "revenue").sum))).take 10
  let promo_impact := (groupKeys df2 "promotion").map fun k =>
    (k, listMean (groupVals df2 "promotion" k "revenue"),
        (groupVals df2 "promotion" k "revenue").length,
        (groupVals df2 "promotion" k "revenue").sum)
  (⟨store_metrics, daily_revenue, top_customers, promo_impact⟩, df2)

/-- Script 03 `polars_operations`: `df = df.with_columns(...)` rebinds a local
name to a new frame; the caller's dataframe is untouched.  Second component
of the result: the caller's dataframe after the call. -/
def polars_operations (df : DF) : OpResults × DF :=
  let dfL := setCol df "revenue"
    (((getCol df "quantity").zip (getCol df "price")).map
      (fun p => .rat (asRat p.1 * asRat p.2)))
  let store_metrics := (groupKeys dfL "store_id").map fun k =>
    (k, round2 (groupVals dfL "store_id" k "revenue").sum,
        round2 (listMean (groupVals dfL "store_id" k "revenue")),
        (groupVals dfL "store_id" k "quantity").sum,
        (uniqueKeys (groupCells dfL "store_id" k "customer_id")).length)
  let days := uniqueKeys ((getCol dfL "timestamp").map dayOf)
  let daily_revenue := days.map fun d =>
    (d, (((getCol dfL "timestamp").map dayOf).zip ((getCol dfL "revenue").map asRat)
          |>.filterMap (fun p => if p.1 = d then some p.2 else none)).sum)
  let top_customers := (sortDesc ((groupKeys dfL "customer_id").map fun k =>
    (k, (groupVals dfL "customer_id" k "revenue").sum))).take 10
  let promo_impact := (groupKeys dfL "promotion").map fun k =>
    (k, listMean (groupVals dfL "promotion" k "revenue"),
        (groupVals dfL "promotion" k "revenue").length,
        (groupVals dfL "promotion" k "revenue").sum)
  (⟨store_metrics, daily_revenue, top_customers, promo_impact⟩, df)

/-! ### Script 05: the two customer-segmentation queries -/

/-- One row of the script 05 parquet table. -/
structure TxRow where
  timestamp : ℕ
  store_id : ℕ
  product_id : ℕ
  quantity : ℤ
  price : ℚ
  customer_id : ℕ
  promotion : String
deriving DecidableEq, Repr

def txRevenue (r : TxRow) : ℚ := (r.quantity : ℚ) * r.price

/-- A customer-metrics row: `(customer_id, total_spend, total_items,
visit_count, avg_transaction_value)`. -/
abbrev CustRow : Type := ℕ × ℚ × ℤ × ℕ × ℚ

/-- Script 05 `polars_operations`, operation 3: group by customer, then
`with_columns(pl.col("total_spend").mean().alias("avg_transaction_value"))` —
the mean of the *per-customer totals column*, broadcast to every row —
then sort by `total_spend` descending. -/
def polarsCustomerMetrics (rows : List TxRow) : List CustRow :=
  let base := (uniqueKeys (rows.map (·.customer_id))).map fun c =>
    let grp := rows.filter (fun r => r.customer_id = c)
    (c, ((grp.map txRevenue).sum : ℚ), (grp.map (·.quantity)).sum, grp.length)
  let grandMean := listMean (base.map (fun b => b.2.1))
  sortDescBy (fun r => r.2.1)
    (base.map (fun b => (b.1, b.2.1, b.2.2.1, b.2.2.2, grandMean)))

/-- Script 05 `duckdb_operations`, query 3: group by customer with
`AVG(revenue) as avg_transaction_value` — the per-customer mean of row
revenues — ordered by `total_spend` descending. -/
def duckdbCustomerMetrics (rows : List TxRow) : List CustRow :=
  sortDescBy (fun r => r.2.1)
    ((uniqueKeys (rows.map (·.customer_id))).map fun c =>
      let grp := rows.filter (fun r => r.customer_id = c)
      (c, ((grp.map txRevenue).sum : ℚ), (grp.map (·.quantity)).sum, grp.length,
       listMean (grp.map txRevenue)))

/-- `avg_transaction_value` of customer `c` in a metrics table. -/
def lookupAvg (tbl : List CustRow) (c : ℕ) : Option ℚ :=
  (tbl.find? (fun r => r.1 == c)).map (fun r => r.2.2.2.2)

/-! ### Concrete inputs used to instantiate the theorems -/

/-- A clock whose reading at the n-th `time()` call is `n` seconds. -/
def exClock : ℕ → ℚ := fun n => (n : ℚ)

/-- Initial harness state over `exClock`. -/
def exState : ClockState := ⟨exClock, 0, 0⟩

/-- A wrapped computation that runs for five clock ticks and returns 7. -/
def exFunc : ClockState → Except Unit ℕ × ClockState :=
  fun t => (.ok 7, { t with tick := t.tick + 5 })

/-- A wrapped computation that raises after five clock ticks. -/
def exFuncErr : ClockState → Except String ℕ × ClockState :=
  fun t => (.error "boom", { t with tick := t.tick + 5 })

/-- Two days with equal total revenue (25.0 each): a best-day tie. -/
def dsTie : List SalesRow :=
  [⟨"2023-01-01", "A", 2, 10⟩, ⟨"2023-01-01", "B", 1, 5⟩,
   ⟨"2023-01-02", "A", 2, 10⟩, ⟨"2023-01-02", "B", 1, 5⟩]

/-- The three-row example table of the specification. -/
def dsSpec : List SalesRow :=
  [⟨"2023-01-01", "A", 2, 10⟩, ⟨"2023-01-01", "B", 1, 5⟩,
   ⟨"2023-01-02", "A", 3, 10⟩]

/-- A one-row script 03 dataframe (no `revenue` column yet). -/
def dfEx : DF :=
  [("timestamp", [.dt 0]), ("store_id", [.int 1]), ("quantity", [.int 2]),
   ("price", [.rat 10]), ("customer_id", [.int 7]), ("promotion", [.str "None"])]

/-- Customer 1 buys for 10 then 20; customer 2 buys once for 60. -/
def dsC10 : List TxRow :=
  [⟨0, 1, 1, 1, 10, 1, "None"⟩, ⟨1, 1, 1, 1, 20, 1, "None"⟩,
   ⟨2, 1, 1, 1, 60, 2, "None"⟩]

/-! ## Theorems -/

/-- C1: one invocation of `time_operation`'s wrapper calls the wrapped
computation exactly once and returns a pair of the computation's own result
(unchanged) and a non-negative elapsed time.  Hypotheses: the computation
returns `a` leaving state `t`, does not touch the ambient clock, the call
counter, or run time backwards, and the clock is monotone (the contract's
"monotonic start and end timestamp"). -/
theorem C1_wrapper_calls_once_returns_result_nonneg_elapsed {ε α : Type}
    (func : ClockState → Except ε α × ClockState) (s : ClockState)
    (a : α) (t : ClockState)
    (hrun : func { s with tick := s.tick + 1 } = (.ok a, t))
    (hclock : t.clock = s.clock)
    (htick : s.tick + 1 ≤ t.tick)
    (hcalls : t.calls = s.calls)
    (hmono : ∀ i j : ℕ, i ≤ j → s.clock i ≤ s.clock j) :
    (time_operation func s).1 = .ok (a, s.clock t.tick - s.clock s.tick) ∧
    0 ≤ s.clock t.tick - s.clock s.tick ∧
    (time_operation func s).2.calls = s.calls + 1 := by
  refine ⟨?_, ?_, ?_⟩
  · simp [time_operation, timeFn, invoke, hrun, hclock]
  · exact sub_nonneg.mpr (hmono _ _ (Nat.le_of_succ_le htick))
  · simp [time_operation, timeFn, invoke, hrun, hcalls]

/-- Witness for C1 at a concrete clock and computation: result 7 is returned
unchanged, the elapsed time evaluates to 6 seconds, and the wrapped
computation ran exactly once. -/
theorem C1_witness :
    (time_operation exFunc exState).1 = .ok (7, (6 : ℚ)) ∧
    (time_operation exFunc exState).2.calls = 1 := by
  have h := C1_wrapper_calls_once_returns_result_nonneg_elapsed exFunc exState 7
    ⟨exClock, 6, 0⟩ rfl rfl (by decide) rfl
    (fun i j hij => by show (i : ℚ) ≤ (j : ℚ); exact_mod_cast hij)
  refine ⟨?_, h.2.2⟩
  rw [h.1]
  norm_num [exState, exClock]

/-- C2: when the wrapped computation raises, `time_operation`'s wrapper
propagates the same error unchanged, still invoked the computation exactly
once, and executed no further statement (in particular no second `time()`
call: the tick count is exactly as the computation left it). -/
theorem C2_wrapper_propagates_error {ε α : Type}
    (func : ClockState → Except ε α × ClockState) (s : ClockState)
    (e : ε) (t : ClockState)
    (hrun : func { s with tick := s.tick + 1 } = (.error e, t))
    (hcalls : t.calls = s.calls) :
    (time_operation func s).1 = (.error e : Except ε (α × ℚ)) ∧
    (time_operation func s).2.calls = s.calls + 1 ∧
    (time_operation func s).2.tick = t.tick := by
  refine ⟨?_, ?_, ?_⟩ <;> simp [time_operation, timeFn, invoke, hrun, hcalls]

/-- Witness for C2: the concrete raising computation's error comes out
unchanged after exactly one invocation, with no further time capture. -/
theorem C2_witness :
    (time_operation exFuncErr exState).1 = (.error "boom" : Except String (ℕ × ℚ)) ∧
    (time_operation exFuncErr exState).2.calls = 1 ∧
    (time_operation exFuncErr exState).2.tick = 6 :=
  C2_wrapper_propagates_error exFuncErr exState "boom" ⟨exClock, 6, 0⟩ rfl rfl

/-- C3: `create_large_dataset` is deterministic — it reseeds the global RNG
with the fixed seed 42 before drawing, so for any RNG implementation, any two
ambient global RNG states (in particular the states before a first and before
a second invocation) and any row count, the two generated tables are
identical, column for column. -/
theorem C3_create_large_dataset_deterministic {S : Type} (np : PRNGImpl S)
    (s1 s2 : S) (rows : ℕ) :
    create_large_dataset np s1 rows = create_large_dataset np s2 rows := rfl

/-- C6: `duckdb_analysis` runs its queries and then evaluates
`return product_revenue, best_day, weekly_avg`, where `weekly_avg` is bound
nowhere in the function's environment: every invocation ends with a
`NameError` instead of returning a three-tuple. -/
theorem C6_weekly_avg_is_a_name_error (ds : List SalesRow) :
    duckdb_analysis ds = .error (.nameError "weekly_avg") := rfl

/-- C7: when `data/sales_data.csv` does not exist, `verify_data_file` raises
`FileNotFoundError` before any query, the `__main__` driver catches it and
prints the descriptive message plus a hint, the analysis queries never run,
and no error escapes the top-level boundary. -/
theorem C7_missing_file_is_reported (fs : List String) (ds : List SalesRow)
    (h : "data/sales_data.csv" ∉ fs) :
    verify_data_file fs ds =
      .error (.fileNotFound "Data file not found at data/sales_data.csv") ∧
    mainBlock fs ds =
      ⟨false,
       ["Error: Data file not found at data/sales_data.csv",
        "Please ensure the sales data file exists in the data directory."],
       none⟩ := by
  have hv : verify_data_file fs ds =
      .error (.fileNotFound "Data file not found at data/sales_data.csv") := by
    simp [verify_data_file, h]
  exact ⟨hv, by simp [mainBlock, hv, handleErr]⟩

/-- Witness for C7: an empty filesystem triggers the handled
file-not-found report with the analysis never run. -/
theorem C7_witness :
    mainBlock [] [] =
      ⟨false,
       ["Error: Data file not found at data/sales_data.csv",
        "Please ensure the sales data file exists in the data directory."],
       none⟩ :=
  (C7_missing_file_is_reported [] [] (by simp)).2

/-- C8: in each of the three connection-opening functions
(`duckdb_analysis`, `verify_data_file`, `duckdb_operations`), `close()` is
reached exactly when every query succeeds, and a raising query terminates
the function with the connection still open. -/
theorem C8_close_only_on_success_path (fails : String → Bool) :
    ((runSteps fails false duckdbAnalysisSteps initTrace).closeReached = true ↔
      ∀ q ∈ duckdbAnalysisQueries, fails q = false) ∧
    ((∃ q ∈ duckdbAnalysisQueries, fails q = true) →
      (runSteps fails false duckdbAnalysisSteps initTrace).closeReached = false ∧
      (runSteps fails false duckdbAnalysisSteps initTrace).connOpen = true) ∧
    ((runSteps fails false verifyDataFileSteps initTrace).closeReached = true ↔
      ∀ q ∈ verifyDataFileQueries, fails q = false) ∧
    ((∃ q ∈ verifyDataFileQueries, fails q = true) →
      (runSteps fails false verifyDataFileSteps initTrace).closeReached = false ∧
      (runSteps fails false verifyDataFileSteps initTrace).connOpen = true) ∧
    ((runSteps fails false duckdbOperationsSteps initTrace).closeReached = true ↔
      ∀ q ∈ duckdbOperationsQueries, fails q = false) ∧
    ((∃ q ∈ duckdbOperationsQueries, fails q = true) →
      (runSteps fails false duckdbOperationsSteps initTrace).closeReached = false ∧
      (runSteps fails false duckdbOperationsSteps initTrace).connOpen = true) := by
  refine ⟨?_, ?_, ?_, ?_, ?_, ?_⟩
  · cases h1 : fails "product_revenue" <;> cases h2 : fails "best_day" <;>
      simp [runSteps, duckdbAnalysisSteps, duckdbAnalysisQueries, initTrace, h1, h2]
  · cases h1 : fails "product_revenue" <;> cases h2 : fails "best_day" <;>
      simp [runSteps, duckdbAnalysisSteps, duckdbAnalysisQueries, initTrace, h1, h2]
  · cases h1 : fails "sample" <;>
      simp [runSteps, verifyDataFileSteps, verifyDataFileQueries, initTrace, h1]
  · cases h1 : fails "sample" <;>
      simp [runSteps, verifyDataFileSteps, verifyDataFileQueries, initTrace, h1]
  · cases h1 : fails "create_view" <;> cases h2 : fails "store_metrics" <;>
      cases h3 : fails "hourly_revenue" <;> cases h4 : fails "customer_metrics" <;>
      cases h5 : fails "promo_metrics" <;>
      simp [runSteps, duckdbOperationsSteps, duckdbOperationsQueries, initTrace,
        h1, h2, h3, h4, h5]
  · cases h1 : fails "create_view" <;> cases h2 : fails "store_metrics" <;>
      cases h3 : fails "hourly_revenue" <;> cases h4 : fails "customer_metrics" <;>
      cases h5 : fails "promo_metrics" <;>
      simp [runSteps, duckdbOperationsSteps, duckdbOperationsQueries, initTrace,
        h1, h2, h3, h4, h5]

/-- Witness for C8: with the `best_day` query raising, `duckdb_analysis`
ends with the connection never closed and still open. -/
theorem C8_witness :
    (runSteps (fun q => q == "best_day") false duckdbAnalysisSteps initTrace).closeReached
      = false ∧
    (runSteps (fun q => q == "best_day") false duckdbAnalysisSteps initTrace).connOpen
      = true :=
  (C8_close_only_on_success_path (fun q => q == "best_day")).2.1
    ⟨"best_day", by decide, by decide⟩

/-! ### Helper lemmas on sorting, maxima and grouping keys -/

theorem sortDescBy_perm {α : Type} (key : α → ℚ) (l : List α) :
    List.Perm (sortDescBy key l) l :=
  List.perm_insertionSort _ l

theorem sortDescBy_head_max {α : Type} (key : α → ℚ) (l : List α) (x : α)
    (xs : List α) (h : sortDescBy key l = x :: xs) :
    x ∈ l ∧ ∀ y ∈ l, key y ≤ key x := by
  haveI : IsTotal α (fun a b => key b ≤ key a) := ⟨fun a b => le_total (key b) (key a)⟩
  haveI : IsTrans α (fun a b => key b ≤ key a) :=
    ⟨fun a b c hab hbc => le_trans hbc hab⟩
  have hsorted := List.sorted_insertionSort (fun a b => key b ≤ key a) l
  rw [show List.insertionSort (fun a b => key b ≤ key a) l = sortDescBy key l from rfl,
    h] at hsorted
  have hperm : List.Perm (x :: xs) l := h ▸ sortDescBy_perm key l
  refine ⟨hperm.mem_iff.mp (List.mem_cons_self x xs), fun y hy => ?_⟩
  rcases List.mem_cons.mp (hperm.mem_iff.mpr hy) with rfl | hmem
  · exact le_refl _
  · exact List.rel_of_sorted_cons hsorted y hmem

theorem sortDescBy_ne_nil {α : Type} (key : α → ℚ) (l : List α) (h : l ≠ []) :
    sortDescBy key l ≠ [] := by
  intro hnil
  have hperm : List.Perm ([] : List α) l := hnil ▸ sortDescBy_perm key l
  exact h hperm.symm.eq_nil

theorem foldl_uniqueKeys_acc_mem {κ : Type} [DecidableEq κ] (l : List κ) :
    ∀ (acc : List κ), ∀ a ∈ acc,
      a ∈ l.foldl (fun acc k => if k ∈ acc then acc else acc ++ [k]) acc := by
  induction l with
  | nil => intro acc a ha; simpa using ha
  | cons k ks ih =>
      intro acc a ha
      simp only [List.foldl_cons]
      by_cases hk : k ∈ acc
      · simpa [hk] using ih acc a ha
      · refine ih _ a ?_
        simp [hk, List.mem_append, ha]

theorem mem_uniqueKeys {κ : Type} [DecidableEq κ] (l : List κ) :
    ∀ k ∈ l, k ∈ uniqueKeys l := by
  have main : ∀ (l : List κ) (acc : List κ), ∀ k ∈ l,
      k ∈ l.foldl (fun acc k => if k ∈ acc then acc else acc ++ [k]) acc := by
    intro l
    induction l with
    | nil => intro acc k hk; simp at hk
    | cons a as ih =>
        intro acc k hk
        rcases List.mem_cons.mp hk with rfl | hk
        · simp only [List.foldl_cons]
          refine foldl_uniqueKeys_acc_mem as _ k ?_
          by_cases ha : k ∈ acc
          · simp [ha]
          · simp [ha, List.mem_append]
        · simpa only [List.foldl_cons] using ih _ k hk
  exact main l []

theorem sqlMax_cons (a : ℚ) (t : List ℚ) :
    sqlMax (a :: t) =
      match sqlMax t with
      | none => some a
      | some m => some (max a m) := rfl

theorem sqlMax_eq_none {l : List ℚ} (h : sqlMax l = none) : l = [] := by
  cases l with
  | nil => rfl
  | cons a t =>
      rw [sqlMax_cons] at h
      cases ht : sqlMax t <;> rw [ht] at h <;> simp at h

theorem sqlMax_spec (l : List ℚ) (m : ℚ) (h : sqlMax l = some m) :
    m ∈ l ∧ ∀ x ∈ l, x ≤ m := by
  induction l generalizing m with
  | nil => simp [sqlMax] at h
  | cons a t ih =>
      rw [sqlMax_cons] at h
      cases ht : sqlMax t with
      | none =>
          rw [ht] at h
          obtain rfl := sqlMax_eq_none ht
          simp only [Option.some.injEq] at h
          subst h
          simp
      | some mt =>
          rw [ht] at h
          simp only [Option.some.injEq] at h
          obtain ⟨hmem, hbound⟩ := ih mt ht
          subst h
          constructor
          · rcases max_cases a mt with ⟨he, _⟩ | ⟨he, _⟩ <;> rw [he]
            · exact List.mem_cons_self a t
            · exact List.mem_cons_of_mem a hmem
          · intro x hx
            rcases List.mem_cons.mp hx with rfl | hx
            · exact le_max_left _ _
            · exact le_trans (hbound x hx) (le_max_right _ _)

theorem sqlMax_isSome {l : List ℚ} (h : l ≠ []) : ∃ m, sqlMax l = some m := by
  cases hl : sqlMax l with
  | none => exact absurd (sqlMax_eq_none hl) h
  | some m => exact ⟨m, rfl⟩

/-- C4 holds of the DuckDB query but fails for `polars_analysis`, which sorts
descending and takes `head(1)`: on the tied dataset `dsTie` the day
2023-01-02 also attains the maximal daily revenue 25 yet is not among the
returned rows, so not all qualifying rows are returned. -/
theorem C4_counterexample_tie_dropped :
    ("2023-01-02", (25 : ℚ)) ∈ dailySalesPl dsTie ∧
    (∀ y ∈ dailySalesPl dsTie, y.2 ≤ (25 : ℚ)) ∧
    ("2023-01-02", (25 : ℚ)) ∉ polarsBestDay dsTie := by
  have hdaily : dailySalesPl dsTie = [("2023-01-01", 25), ("2023-01-02", 25)] := by
    simp [dailySalesPl, dsTie, uniqueKeys, rowRevenue]
    norm_num
  have hsort : polarsBestDay dsTie = [("2023-01-01", 25)] := by
    unfold polarsBestDay sortDesc sortDescBy
    rw [hdaily]
    simp [List.insertionSort, List.orderedInsert]
  refine ⟨by rw [hdaily]; simp, ?_, by rw [hsort]; simp⟩
  rw [hdaily]
  intro y hy
  simp only [List.mem_cons, List.not_mem_nil, or_false] at hy
  rcases hy with rfl | rfl <;> norm_num

/-- C4 as amended: for every dataset, the DuckDB best-sales-day query returns
exactly the rows of its (rounded) daily-revenue table attaining the maximal
daily revenue — ties yield all qualifying rows — while `polars_analysis`
returns exactly one row, which does attain the maximal daily revenue. -/
theorem C4_amended_best_day (ds : List SalesRow) (hne : ds ≠ []) :
    (∀ x : String × ℚ, x ∈ duckdbBestDay ds ↔
      x ∈ dailySalesDk ds ∧ ∀ y ∈ dailySalesDk ds, y.2 ≤ x.2) ∧
    (∃ x, polarsBestDay ds = [x] ∧ x ∈ dailySalesPl ds ∧
      ∀ y ∈ dailySalesPl ds, y.2 ≤ x.2) := by
  constructor
  · intro x
    unfold duckdbBestDay
    rw [List.mem_filter]
    simp only [decide_eq_true_eq]
    constructor
    · rintro ⟨hmem, hmax⟩
      obtain ⟨_, hbound⟩ := sqlMax_spec _ _ hmax
      refine ⟨hmem, fun y hy => ?_⟩
      exact hbound y.2 (List.mem_map_of_mem (·.2) hy)
    · rintro ⟨hmem, hbound⟩
      have hvals : (dailySalesDk ds).map (·.2) ≠ [] := by
        intro hnil
        rw [List.map_eq_nil_iff] at hnil
        rw [hnil] at hmem
        exact (List.not_mem_nil x) hmem
      obtain ⟨m, hm⟩ := sqlMax_isSome hvals
      obtain ⟨hmmem, hmbound⟩ := sqlMax_spec _ _ hm
      obtain ⟨y, hymem, hym⟩ := List.mem_map.mp hmmem
      have h1 : m ≤ x.2 := hym ▸ hbound y hymem
      have h2 : x.2 ≤ m := hmbound x.2 (List.mem_map_of_mem (·.2) hmem)
      refine ⟨hmem, ?_⟩
      rw [hm, le_antisymm h2 h1]
  · have hdaily : dailySalesPl ds ≠ [] := by
      cases ds with
      | nil => exact absurd rfl hne
      | cons r rest =>
          unfold dailySalesPl
          intro hnil
          rw [List.map_eq_nil_iff] at hnil
          have : r.date ∈ uniqueKeys ((r :: rest).map (·.date)) :=
            mem_uniqueKeys _ r.date (by simp)
          rw [hnil] at this
          exact (List.not_mem_nil _) this
    cases hs : sortDescBy (fun y : String × ℚ => y.2) (dailySalesPl ds) with
    | nil => exact absurd hs (sortDescBy_ne_nil _ _ hdaily)
    | cons x xs =>
        obtain ⟨hxmem, hxmax⟩ :=
          sortDescBy_head_max (fun y : String × ℚ => y.2) (dailySalesPl ds) x xs hs
        refine ⟨x, ?_, hxmem, hxmax⟩
        show (sortDescBy (fun y : String × ℚ => y.2) (dailySalesPl ds)).take 1 = [x]
        rw [hs]
        rfl

/-- Witness for C4's amended statement at the tied dataset. -/
theorem C4_amended_witness :
    (∀ x : String × ℚ, x ∈ duckdbBestDay dsTie ↔
      x ∈ dailySalesDk dsTie ∧ ∀ y ∈ dailySalesDk dsTie, y.2 ≤ x.2) ∧
    (∃ x, polarsBestDay dsTie = [x] ∧ x ∈ dailySalesPl dsTie ∧
      ∀ y ∈ dailySalesPl dsTie, y.2 ≤ x.2) :=
  C4_amended_best_day dsTie (by simp [dsTie])

/-- C5: total revenue per product agrees between the Polars implementation
(script 02) and the DuckDB implementation (script 04): the two result tables
contain exactly the same `(product, rounded total)` rows — DuckDB merely
reorders them by revenue. -/
theorem C5_product_revenue_engines_agree (ds : List SalesRow) (p : String) (v : ℚ) :
    ((p, v) ∈ polarsProductRevenue ds ↔ (p, v) ∈ duckdbProductRevenue ds) := by
  show (p, v) ∈ polarsProductRevenue ds ↔
    (p, v) ∈ sortDescBy (fun y : String × ℚ => y.2) (polarsProductRevenue ds)
  exact
    (sortDescBy_perm (fun y : String × ℚ => y.2) (polarsProductRevenue ds)).mem_iff.symm

/-! ### Helper lemmas on dataframe column assignment -/

theorem hasCol_setCol_self (df : DF) (n : String) (c : List PyVal) :
    hasCol (setCol df n c) n = true := by
  unfold setCol
  split
  · next h =>
      unfold hasCol at h ⊢
      rw [List.any_eq_true] at h ⊢
      obtain ⟨x, hx, hkey⟩ := h
      refine ⟨(n, c), List.mem_map.mpr ⟨x, hx, by simp [hkey]⟩, by simp⟩
  · next h =>
      unfold hasCol
      rw [List.any_eq_true]
      exact ⟨(n, c), by simp, by simp⟩

theorem find?_key_update (l : DF) (n : String) (c : List PyVal)
    (h : l.any (fun x => x.1 == n) = true) :
    (l.map (fun x => if x.1 == n then (n, c) else x)).find? (fun x => x.1 == n)
      = some (n, c) := by
  induction l with
  | nil => simp at h
  | cons hd tl ih =>
      rw [List.map_cons]
      by_cases hk : (hd.1 == n) = true
      · rw [if_pos hk, List.find?_cons_of_pos _ (by simp)]
      · have h' : tl.any (fun x => x.1 == n) = true := by
          simp only [List.any_cons, Bool.or_eq_true] at h
          rcases h with h | h
          · exact absurd h hk
          · exact h
        rw [if_neg hk, List.find?_cons_of_neg _ (by simpa using hk)]
        exact ih h'

theorem getCol_setCol_self (df : DF) (n : String) (c : List PyVal) :
    getCol (setCol df n c) n = c := by
  unfold setCol
  split
  · next h =>
      unfold getCol
      rw [find?_key_update df n c h]
      rfl
  · next h =>
      unfold getCol
      have hnone : df.find? (fun x => x.1 == n) = none := by
        rw [List.find?_eq_none]
        intro x hx hkey
        exact h (by unfold hasCol; rw [List.any_eq_true]; exact ⟨x, hx, hkey⟩)
      rw [List.find?_append, hnone]
      simp [List.find?]

theorem find?_key_update_ne (tl : DF) (n m : String) (c : List PyVal)
    (hnm : (n == m) = false) :
    (tl.map (fun x => if x.1 == n then (n, c) else x)).find? (fun x => x.1 == m)
      = tl.find? (fun x => x.1 == m) := by
  induction tl with
  | nil => rfl
  | cons hd tl ih =>
      rw [List.map_cons]
      by_cases hk : (hd.1 == n) = true
      · have hdm : (hd.1 == m) = false := by rw [eq_of_beq hk]; exact hnm
        rw [if_pos hk, List.find?_cons, List.find?_cons]
        simp only [hdm, hnm]
        exact ih
      · rw [if_neg hk, List.find?_cons, List.find?_cons]
        by_cases hdm : (hd.1 == m) = true
        · simp only [hdm]
        · simp only [Bool.not_eq_true] at hdm
          simp only [hdm]
          exact ih

theorem getCol_setCol_ne (df : DF) (n m : String) (c : List PyVal)
    (hnm : (n == m) = false) :
    getCol (setCol df n c) m = getCol df m := by
  unfold setCol
  split
  · next _ =>
      unfold getCol
      rw [find?_key_update_ne df n m c hnm]
  · next _ =>
      unfold getCol
      rw [List.find?_append]
      cases hfind : df.find? (fun x => x.1 == m) with
      | some v => simp [hfind]
      | none => simp [List.find?_cons, hnm]

/-- C9: `pandas_operations` mutates the dataframe object passed to it — the
caller's dataframe afterwards has its `timestamp` column overwritten with the
converted values and carries a new `revenue` column, so it differs from what
was passed in — whereas `polars_operations` only rebinds a local name and the
caller's dataframe is unchanged. -/
theorem C9_pandas_mutates_in_place_polars_not (df : DF)
    (h : hasCol df "revenue" = false) :
    getCol (pandas_operations df).2 "timestamp"
      = (getCol df "timestamp").map toDatetime ∧
    hasCol (pandas_operations df).2 "revenue" = true ∧
    (pandas_operations df).2 ≠ df ∧
    (polars_operations df).2 = df := by
  refine ⟨?_, hasCol_setCol_self _ _ _, ?_, rfl⟩
  · show getCol
      (setCol (setCol df "timestamp" ((getCol df "timestamp").map toDatetime))
        "revenue" _) "timestamp" = _
    rw [getCol_setCol_ne
        (setCol df "timestamp" ((getCol df "timestamp").map toDatetime))
        "revenue" "timestamp" _ (by rfl),
      getCol_setCol_self]
  · intro heq
    have h2 : hasCol (pandas_operations df).2 "revenue" = true :=
      hasCol_setCol_self _ _ _
    rw [heq, h] at h2
    exact Bool.false_ne_true h2

/-- Witness for C9 at the concrete one-row dataframe `dfEx`. -/
theorem C9_witness :
    getCol (pandas_operations dfEx).2 "timestamp"
      = (getCol dfEx "timestamp").map toDatetime ∧
    hasCol (pandas_operations dfEx).2 "revenue" = true ∧
    (pandas_operations dfEx).2 ≠ dfEx ∧
    (polars_operations dfEx).2 = dfEx :=
  C9_pandas_mutates_in_place_polars_not dfEx rfl

/-- C10: the two 'same' customer-segmentation operations of script 05 are
not equivalent.  On `dsC10`, the Polars version broadcasts the grand mean of
per-customer totals (45) into `avg_transaction_value` of every row, while
the DuckDB version computes the per-customer average revenue (15 for
customer 1, 60 for customer 2); the tables disagree in that column. -/
theorem C10_avg_transaction_value_diverges :
    polarsCustomerMetrics dsC10 = [(2, 60, 1, 1, 45), (1, 30, 2, 2, 45)] ∧
    duckdbCustomerMetrics dsC10 = [(2, 60, 1, 1, 60), (1, 30, 2, 2, 15)] ∧
    lookupAvg (polarsCustomerMetrics dsC10) 1 = some 45 ∧
    lookupAvg (duckdbCustomerMetrics dsC10) 1 = some 15 ∧
    lookupAvg (polarsCustomerMetrics dsC10) 1
      ≠ lookupAvg (duckdbCustomerMetrics dsC10) 1 := by
  have hpl : polarsCustomerMetrics dsC10 = [(2, 60, 1, 1, 45), (1, 30, 2, 2, 45)] := by
    simp [polarsCustomerMetrics, dsC10, uniqueKeys, txRevenue, listMean, sortDescBy,
      List.insertionSort, List.orderedInsert]
    norm_num
  have hdk : duckdbCustomerMetrics dsC10 = [(2, 60, 1, 1, 60), (1, 30, 2, 2, 15)] := by
    simp [duckdbCustomerMetrics, dsC10, uniqueKeys, txRevenue, listMean, sortDescBy,
      List.insertionSort, List.orderedInsert]
    norm_num
  refine ⟨hpl, hdk, ?_, ?_, ?_⟩
  · rw [hpl]
    simp [lookupAvg, List.find?_cons]
  · rw [hdk]
    simp [lookupAvg, List.find?_cons]
  · rw [hpl, hdk]
    simp [lookupAvg, List.find?_cons]

end Tutorial
